import Mathlib

/-!
Shallow embedding of the client logic in `src/App.js` (React component
`NutritionAnalyzer`).  The two submission handlers `analyzeFood` and
`handleQuickAnalysis` are modelled as the ordered trace of their observable
effects (state-setter calls and the single outbound `fetch`), parameterised by
the outcome of that `fetch`; the pure display helpers are modelled directly.
JS numbers are modelled as rationals: every threshold comparison appearing
below is exact in IEEE doubles as well, so the comparisons agree.
-/

namespace NutritionAnalyzer

/-- JS `String.prototype.trim` whitespace set (WhiteSpace ∪ LineTerminator):
TAB..CR, SP, NBSP, OGHAM SP, U+2000..U+200A, LS, PS, NNBSP, MMSP,
IDEOGRAPHIC SP, ZWNBSP. -/
def isJsWhitespace (c : Char) : Bool :=
  let n := c.toNat
  (9 ≤ n && n ≤ 13) || n = 32 || n = 160 || n = 5760 ||
  (8192 ≤ n && n ≤ 8202) || n = 8232 || n = 8233 || n = 8239 ||
  n = 8287 || n = 12288 || n = 65279

/-- JS `s.trim()`: strip leading and trailing JS whitespace. -/
def jsTrim (s : String) : String :=
  String.mk (((s.toList.dropWhile isJsWhitespace).reverse.dropWhile
    isJsWhitespace).reverse)

/-- JS `s.toLowerCase()` on the ASCII range (which covers the fixed
suggestion set the component passes in). -/
def toLowerCase (s : String) : String :=
  String.mk (s.toList.map Char.toLower)

/-- Uppercase hexadecimal digit, as produced by `encodeURIComponent`. -/
def hexDigitChar (n : Nat) : Char :=
  if n < 10 then Char.ofNat (48 + n) else Char.ofNat (55 + n)

/-- UTF-8 byte sequence of a code point. -/
def utf8Bytes (n : Nat) : List Nat :=
  if n < 128 then [n]
  else if n < 2048 then [192 + n / 64, 128 + n % 64]
  else if n < 65536 then [224 + n / 4096, 128 + n / 64 % 64, 128 + n % 64]
  else [240 + n / 262144, 128 + n / 4096 % 64, 128 + n / 64 % 64,
    128 + n % 64]

/-- The three characters of a `%XY` percent-escape of one byte
(code point 37 is the percent sign). -/
def percentByte (b : Nat) : List Char :=
  [Char.ofNat 37, hexDigitChar (b / 16 % 16), hexDigitChar (b % 16)]

/-- Characters `encodeURIComponent` leaves unescaped: ASCII letters, digits,
and (by code point) 45 `-`, 95 `_`, 46 `.`, 33 `!`, 126 `~`, 42 `*`,
40 `(`, 41 `)`, 39 apostrophe. -/
def isUnescapedURI (c : Char) : Bool :=
  let n := c.toNat
  (65 ≤ n && n ≤ 90) || (97 ≤ n && n ≤ 122) || (48 ≤ n && n ≤ 57) ||
  n = 45 || n = 95 || n = 46 || n = 33 || n = 126 || n = 42 || n = 40 ||
  n = 41 || n = 39

/-- JS `encodeURIComponent`: percent-escape every character outside the
unescaped set, byte by byte of its UTF-8 encoding. -/
def encodeURIComponent (s : String) : String :=
  String.mk (List.flatten (s.toList.map fun c =>
    if isUnescapedURI c then [c]
    else List.flatten ((utf8Bytes c.toNat).map percentByte)))

/-- JS `a || b` for strings (the empty string is falsy), as used in
the fallback of `setError(err.message || ...)`. -/
def jsOr (a b : String) : String :=
  if a = "" then b else a

/-- The `detailed_breakdown` object the view renders (App.js 253-259). -/
structure Breakdown where
  calories : ℚ
  protein : ℚ
  carbs : ℚ
  fiber : ℚ
  fat : ℚ
  sugar : ℚ
deriving DecidableEq

/-- Parsed success-response body.  `detailed_breakdown` is optional because
its presence is exactly what both handlers validate (App.js 36, 100). -/
structure ResponseBody where
  food : String
  nutrition_info : String
  detailed_breakdown : Option Breakdown
  health_benefits : List String
  meal_suggestions : List String
  health_score : ℚ
deriving DecidableEq

/-- State hooks of the component (App.js 6-10). -/
structure AppState where
  foodItem : String
  loading : Bool
  nutritionData : Option ResponseBody
  error : String
  darkMode : Bool
deriving DecidableEq

/-- Environment model: the ways the single `fetch` of a handler can resolve.
`netFail` is a rejected fetch promise (transport failure) carrying the
error message of the runtime; `notOk` is a response with `ok = false`, carrying
the server-provided detail of its (unread) body; `jsonFail` is a rejected
`response.json()`; `okBody` is a parsed body (`none` models a falsy `data`). -/
inductive FetchOutcome where
  | netFail (msg : String)
  | notOk (serverDetail : Option String)
  | jsonFail (msg : String)
  | okBody (body : Option ResponseBody)
deriving DecidableEq

/-- One observable effect of a handler run: a state-setter call or the
outbound `fetch`. -/
inductive Event where
  | setError (msg : String)
  | setLoading (b : Bool)
  | setFoodItem (s : String)
  | fetchCall (url : String)
  | setNutritionData (d : ResponseBody)
deriving DecidableEq

/-- Effects emitted after the `fetch` resolves.  The `try`/`catch` bodies of
the two handlers are textually identical apart from the raw name interpolated
into the generic non-ok message (App.js 28-45 and 94-108), so both traces
share this definition. -/
def responseEvents (rawName : String) (o : FetchOutcome) : List Event :=
  match o with
  | .netFail msg =>
      [.setError (jsOr msg "Failed to analyze food. Please try again.")]
  | .notOk _ =>
      [.setError ("Failed to analyze " ++ rawName ++ ". Please try again.")]
  | .jsonFail msg =>
      [.setError (jsOr msg "Failed to analyze food. Please try again.")]
  | .okBody none => [.setError "Invalid response from server"]
  | .okBody (some b) =>
      match b.detailed_breakdown with
      | none => [.setError "Invalid response from server"]
      | some _ => [.setNutritionData b]

/-- Trace semantics of `analyzeFood` (App.js 13-49): the ordered effects, given
the current `foodItem` state and the outcome of its single `fetch`. -/
def analyzeFood (foodItem : String) (o : FetchOutcome) : List Event :=
  if jsTrim foodItem = "" then
    [.setError "Please enter a food item"]
  else
    [.setLoading true, .setError "",
      .fetchCall ("/api/analyze/" ++ encodeURIComponent (jsTrim foodItem))] ++
    responseEvents foodItem o ++ [.setLoading false]

/-- Trace semantics of `handleQuickAnalysis` (App.js 79-112): the ordered
effects for a selected `food` and the outcome of its single `fetch`. -/
def handleQuickAnalysis (food : String) (o : FetchOutcome) : List Event :=
  [.setError "", .setFoodItem (toLowerCase food), .setLoading true,
    .fetchCall ("http://localhost:8000/api/analyze/" ++
      encodeURIComponent (jsTrim food))] ++
  responseEvents food o ++ [.setLoading false]

/-- Apply one effect to the view state (the React state-setter semantics). -/
def applyEvent (s : AppState) : Event → AppState
  | .setError m => { s with error := m }
  | .setLoading b => { s with loading := b }
  | .setFoodItem f => { s with foodItem := f }
  | .fetchCall _ => s
  | .setNutritionData d => { s with nutritionData := some d }

/-- Apply a trace of effects in order. -/
def applyEvents (s : AppState) (es : List Event) : AppState :=
  es.foldl applyEvent s

/-- Final view state after one `analyzeFood` submission from state `s`. -/
def runAnalyzeFood (s : AppState) (o : FetchOutcome) : AppState :=
  applyEvents s (analyzeFood s.foodItem o)

/-- Final view state after one `handleQuickAnalysis` run from state `s`. -/
def runQuickAnalysis (s : AppState) (food : String) (o : FetchOutcome) :
    AppState :=
  applyEvents s (handleQuickAnalysis food o)

/-- Health-score description helper `getScoreDescription` (App.js 66-71). -/
def getScoreDescription (score : ℚ) : String :=
  if score ≥ 80 then "Excellent Choice"
  else if score ≥ 60 then "Good Option"
  else if score ≥ 40 then "Fair Choice"
  else "Consider Alternatives"

/-- The nutrient status chip (App.js 269). -/
def nutrientStatus (value : ℚ) : String :=
  if value > 10 then "High"
  else if value > 5 then "Good"
  else "Low"

/-- Fixed suggestion list `quickSuggestions` (App.js 74-77). -/
def quickSuggestions : List String :=
  ["Banana", "Avocado", "Quinoa", "Salmon",
    "Spinach", "Blueberries", "Almonds", "Sweet Potato"]

/-- True exactly when a fetch outcome drives the handlers into their `catch`
branch (transport failure, non-ok status, JSON failure, falsy body, or body
lacking `detailed_breakdown`). -/
def isFailure (o : FetchOutcome) : Bool :=
  match o with
  | .okBody (some b) => b.detailed_breakdown.isNone
  | .okBody none => true
  | _ => true

/-- Shape check of the handlers, `!data || !data.detailed_breakdown`
(App.js 36 and 100): true when the parsed body is falsy or lacks the
breakdown field. -/
def lacksBreakdown : Option ResponseBody → Bool
  | none => true
  | some b => b.detailed_breakdown.isNone

lemma string_append_left_cancel {a b c : String} (h : a ++ b = a ++ c) :
    b = c := by
  have hd : a.data ++ b.data = a.data ++ c.data := by
    simpa [String.data_append] using congrArg String.data h
  exact String.ext (List.append_cancel_left hd)

lemma jsOr_ne_empty (a b : String) (hb : b ≠ "") : jsOr a b ≠ "" := by
  unfold jsOr
  split
  · exact hb
  · assumption

lemma invalid_msg_ne_empty :
    ("Invalid response from server" : String) ≠ "" := by decide

lemma failed_msg_ne_empty (raw : String) :
    "Failed to analyze " ++ raw ++ ". Please try again." ≠ "" := by
  intro hc
  have hlen := congrArg String.length hc
  rw [String.length_append, String.length_append] at hlen
  have h1 : ("Failed to analyze " : String).length = 18 := rfl
  have h2 : (". Please try again." : String).length = 19 := rfl
  have h3 : ("" : String).length = 0 := rfl
  omega

lemma responseEvents_no_fetch_no_loading (rawName : String)
    (o : FetchOutcome) :
    (∀ u, Event.fetchCall u ∉ responseEvents rawName o) ∧
    (∀ b, Event.setLoading b ∉ responseEvents rawName o) := by
  cases o with
  | netFail msg => simp [responseEvents]
  | notOk d => simp [responseEvents]
  | jsonFail msg => simp [responseEvents]
  | okBody body =>
    cases body with
    | none => simp [responseEvents]
    | some b =>
      cases hb : b.detailed_breakdown <;> simp [responseEvents, hb]

lemma runAnalyzeFood_netFail (s : AppState) (msg : String)
    (hv : jsTrim s.foodItem ≠ "") :
    runAnalyzeFood s (FetchOutcome.netFail msg) =
      { s with
        loading := false
        error := jsOr msg "Failed to analyze food. Please try again." } := by
  unfold runAnalyzeFood analyzeFood
  rw [if_neg hv]
  rfl

lemma runAnalyzeFood_notOk (s : AppState) (detail : Option String)
    (hv : jsTrim s.foodItem ≠ "") :
    runAnalyzeFood s (FetchOutcome.notOk detail) =
      { s with
        loading := false
        error := "Failed to analyze " ++ s.foodItem ++
          ". Please try again." } := by
  unfold runAnalyzeFood analyzeFood
  rw [if_neg hv]
  rfl

lemma runAnalyzeFood_jsonFail (s : AppState) (msg : String)
    (hv : jsTrim s.foodItem ≠ "") :
    runAnalyzeFood s (FetchOutcome.jsonFail msg) =
      { s with
        loading := false
        error := jsOr msg "Failed to analyze food. Please try again." } := by
  unfold runAnalyzeFood analyzeFood
  rw [if_neg hv]
  rfl

lemma runAnalyzeFood_okNone (s : AppState) (hv : jsTrim s.foodItem ≠ "") :
    runAnalyzeFood s (FetchOutcome.okBody none) =
      { s with
        loading := false
        error := "Invalid response from server" } := by
  unfold runAnalyzeFood analyzeFood
  rw [if_neg hv]
  rfl

lemma runAnalyzeFood_okNoBreakdown (s : AppState) (b : ResponseBody)
    (hv : jsTrim s.foodItem ≠ "") (hb : b.detailed_breakdown = none) :
    runAnalyzeFood s (FetchOutcome.okBody (some b)) =
      { s with
        loading := false
        error := "Invalid response from server" } := by
  unfold runAnalyzeFood analyzeFood
  rw [if_neg hv]
  simp [responseEvents, hb, applyEvents, applyEvent]

lemma runAnalyzeFood_success (s : AppState) (b : ResponseBody)
    (bd : Breakdown) (hv : jsTrim s.foodItem ≠ "")
    (hb : b.detailed_breakdown = some bd) :
    runAnalyzeFood s (FetchOutcome.okBody (some b)) =
      { s with
        loading := false
        error := ""
        nutritionData := some b } := by
  unfold runAnalyzeFood analyzeFood
  rw [if_neg hv]
  simp [responseEvents, hb, applyEvents, applyEvent]

lemma runQuickAnalysis_netFail (s : AppState) (food msg : String) :
    runQuickAnalysis s food (FetchOutcome.netFail msg) =
      { s with
        foodItem := toLowerCase food
        loading := false
        error := jsOr msg "Failed to analyze food. Please try again." } := rfl

lemma runQuickAnalysis_notOk (s : AppState) (food : String)
    (detail : Option String) :
    runQuickAnalysis s food (FetchOutcome.notOk detail) =
      { s with
        foodItem := toLowerCase food
        loading := false
        error := "Failed to analyze " ++ food ++ ". Please try again." } := rfl

lemma runQuickAnalysis_jsonFail (s : AppState) (food msg : String) :
    runQuickAnalysis s food (FetchOutcome.jsonFail msg) =
      { s with
        foodItem := toLowerCase food
        loading := false
        error := jsOr msg "Failed to analyze food. Please try again." } := rfl

lemma runQuickAnalysis_okNone (s : AppState) (food : String) :
    runQuickAnalysis s food (FetchOutcome.okBody none) =
      { s with
        foodItem := toLowerCase food
        loading := false
        error := "Invalid response from server" } := rfl

lemma runQuickAnalysis_okNoBreakdown (s : AppState) (food : String)
    (b : ResponseBody) (hb : b.detailed_breakdown = none) :
    runQuickAnalysis s food (FetchOutcome.okBody (some b)) =
      { s with
        foodItem := toLowerCase food
        loading := false
        error := "Invalid response from server" } := by
  unfold runQuickAnalysis handleQuickAnalysis
  simp [responseEvents, hb, applyEvents, applyEvent]

lemma runQuickAnalysis_success (s : AppState) (food : String)
    (b : ResponseBody) (bd : Breakdown)
    (hb : b.detailed_breakdown = some bd) :
    runQuickAnalysis s food (FetchOutcome.okBody (some b)) =
      { s with
        foodItem := toLowerCase food
        loading := false
        error := "", nutritionData := some b } := by
  unfold runQuickAnalysis handleQuickAnalysis
  simp [responseEvents, hb, applyEvents, applyEvent]

/-- C1: for every input whose trimmed form is empty (whitespace-only,
including the empty string), `analyzeFood` emits only the validation error
message "Please enter a food item", performs no network call, never touches
the busy flag (so busy state is not entered and the final loading flag and
stored result equal the initial ones). -/
theorem c1_whitespace_validation (s : AppState) (o : FetchOutcome)
    (h : jsTrim s.foodItem = "") :
    analyzeFood s.foodItem o = [Event.setError "Please enter a food item"] ∧
    (∀ u, Event.fetchCall u ∉ analyzeFood s.foodItem o) ∧
    (∀ b, Event.setLoading b ∉ analyzeFood s.foodItem o) ∧
    (runAnalyzeFood s o).error = "Please enter a food item" ∧
    (runAnalyzeFood s o).loading = s.loading ∧
    (runAnalyzeFood s o).nutritionData = s.nutritionData := by
  have ht : analyzeFood s.foodItem o =
      [Event.setError "Please enter a food item"] := by
    simp [analyzeFood, h]
  refine ⟨ht, ?_, ?_, ?_, ?_, ?_⟩ <;>
    simp [ht, runAnalyzeFood, applyEvents, applyEvent]

/-- C1 witness at the concrete whitespace-only input "   ". -/
theorem c1_whitespace_validation_witness :
    jsTrim "   " = "" ∧
    (runAnalyzeFood ⟨"   ", false, none, "", false⟩
      (FetchOutcome.notOk none)).error = "Please enter a food item" :=
  ⟨by decide,
    (c1_whitespace_validation ⟨"   ", false, none, "", false⟩
      (FetchOutcome.notOk none) (by decide)).2.2.2.1⟩

/-- C2: for every non-empty trimmed input, every dispatched request from
either handler carries `/api/analyze/{food_item}` with `{food_item}` the
URL-escaped trimmed input: the unique fetch of `analyzeFood` has exactly
that relative URL, the unique fetch of `handleQuickAnalysis` has it on host
localhost:8000, and whenever escaping the raw input differs from escaping
the trimmed input the raw variant is never dispatched. -/
theorem c2_dispatch_target (input food : String) (o o2 : FetchOutcome)
    (h : jsTrim input ≠ "") :
    (∀ u, Event.fetchCall u ∈ analyzeFood input o →
      u = "/api/analyze/" ++ encodeURIComponent (jsTrim input)) ∧
    Event.fetchCall ("/api/analyze/" ++ encodeURIComponent (jsTrim input)) ∈
      analyzeFood input o ∧
    (∀ u, Event.fetchCall u ∈ handleQuickAnalysis food o2 →
      u = "http://localhost:8000/api/analyze/" ++
        encodeURIComponent (jsTrim food)) ∧
    Event.fetchCall ("http://localhost:8000/api/analyze/" ++
      encodeURIComponent (jsTrim food)) ∈ handleQuickAnalysis food o2 ∧
    (encodeURIComponent (jsTrim input) ≠ encodeURIComponent input →
      Event.fetchCall ("/api/analyze/" ++ encodeURIComponent input) ∉
        analyzeFood input o) := by
  have hresp := responseEvents_no_fetch_no_loading input o
  have hresp2 := responseEvents_no_fetch_no_loading food o2
  have h1 : ∀ u, Event.fetchCall u ∈ analyzeFood input o →
      u = "/api/analyze/" ++ encodeURIComponent (jsTrim input) := by
    intro u hu
    rw [analyzeFood, if_neg h] at hu
    simp at hu
    rcases hu with hu | hu
    · exact hu
    · exact absurd hu (hresp.1 u)
  have h2 : Event.fetchCall ("/api/analyze/" ++
      encodeURIComponent (jsTrim input)) ∈ analyzeFood input o := by
    rw [analyzeFood, if_neg h]
    simp
  have h3 : ∀ u, Event.fetchCall u ∈ handleQuickAnalysis food o2 →
      u = "http://localhost:8000/api/analyze/" ++
        encodeURIComponent (jsTrim food) := by
    intro u hu
    rw [handleQuickAnalysis] at hu
    simp at hu
    rcases hu with hu | hu
    · exact hu
    · exact absurd hu (hresp2.1 u)
  have h4 : Event.fetchCall ("http://localhost:8000/api/analyze/" ++
      encodeURIComponent (jsTrim food)) ∈ handleQuickAnalysis food o2 := by
    rw [handleQuickAnalysis]
    simp
  refine ⟨h1, h2, h3, h4, ?_⟩
  intro hne hmem
  have := h1 _ hmem
  exact hne (string_append_left_cancel this).symm

/-- C2 witness at the concrete untrimmed input " apple " (whose escaped raw
form differs from its escaped trimmed form). -/
theorem c2_dispatch_target_witness :
    jsTrim " apple " ≠ "" ∧
    Event.fetchCall ("/api/analyze/" ++ encodeURIComponent (jsTrim " apple "))
      ∈ analyzeFood " apple " (FetchOutcome.okBody none) ∧
    encodeURIComponent (jsTrim " apple ") ≠ encodeURIComponent " apple " ∧
    Event.fetchCall ("/api/analyze/" ++ encodeURIComponent " apple ") ∉
      analyzeFood " apple " (FetchOutcome.okBody none) :=
  ⟨by decide,
    (c2_dispatch_target " apple " "Banana" (FetchOutcome.okBody none)
      (FetchOutcome.okBody none) (by decide)).2.1,
    by decide,
    (c2_dispatch_target " apple " "Banana" (FetchOutcome.okBody none)
      (FetchOutcome.okBody none) (by decide)).2.2.2.2 (by decide)⟩

lemma runAnalyzeFood_loading_false (s : AppState) (o : FetchOutcome)
    (hl : s.loading = false) : (runAnalyzeFood s o).loading = false := by
  by_cases hc : jsTrim s.foodItem = ""
  · simp [runAnalyzeFood, analyzeFood, hc, applyEvents, applyEvent, hl]
  · rw [runAnalyzeFood, analyzeFood, if_neg hc]
    simp [applyEvents, List.foldl_append, applyEvent]

lemma runQuickAnalysis_loading_false (s : AppState) (food : String)
    (o : FetchOutcome) : (runQuickAnalysis s food o).loading = false := by
  rw [runQuickAnalysis, handleQuickAnalysis]
  simp [applyEvents, List.foldl_append, applyEvent]

/-- C3: within one submission, validation precedes dispatch (an invalid
input dispatches nothing), dispatch precedes response handling (the
response events sit strictly between the fetch and the final step, with no
further fetch or busy change among them), clearing the busy flag is the
final step of every dispatching path, and after any terminating branch the
busy flag is false, given it was false at entry (which the disabled
controls guarantee), so the view is never left permanently busy. -/
theorem c3_submission_ordering (input food : String) (o o2 : FetchOutcome)
    (s s2 : AppState) (hv : jsTrim input ≠ "") (hl : s.loading = false) :
    (∀ bad o3, jsTrim bad = "" →
      ∀ u, Event.fetchCall u ∉ analyzeFood bad o3) ∧
    (∃ mid, analyzeFood input o =
      [Event.setLoading true, Event.setError "",
        Event.fetchCall ("/api/analyze/" ++
          encodeURIComponent (jsTrim input))] ++
      mid ++ [Event.setLoading false] ∧
      (∀ u, Event.fetchCall u ∉ mid) ∧ (∀ b, Event.setLoading b ∉ mid)) ∧
    (∃ mid, handleQuickAnalysis food o2 =
      [Event.setError "", Event.setFoodItem (toLowerCase food),
        Event.setLoading true,
        Event.fetchCall ("http://localhost:8000/api/analyze/" ++
          encodeURIComponent (jsTrim food))] ++
      mid ++ [Event.setLoading false] ∧
      (∀ u, Event.fetchCall u ∉ mid) ∧ (∀ b, Event.setLoading b ∉ mid)) ∧
    (runAnalyzeFood s o).loading = false ∧
    (runQuickAnalysis s2 food o2).loading = false := by
  refine ⟨?_, ?_, ?_, runAnalyzeFood_loading_false s o hl,
    runQuickAnalysis_loading_false s2 food o2⟩
  · intro bad o3 hbad u
    simp [analyzeFood, hbad]
  · refine ⟨responseEvents input o, ?_,
      (responseEvents_no_fetch_no_loading input o).1,
      (responseEvents_no_fetch_no_loading input o).2⟩
    rw [analyzeFood, if_neg hv]
  · exact ⟨responseEvents food o2, rfl,
      (responseEvents_no_fetch_no_loading food o2).1,
      (responseEvents_no_fetch_no_loading food o2).2⟩

/-- C3 witness at the concrete input "Banana" and a transport failure. -/
theorem c3_submission_ordering_witness :
    jsTrim "Banana" ≠ "" ∧
    (runAnalyzeFood ⟨"Banana", false, none, "", false⟩
      (FetchOutcome.netFail "")).loading = false :=
  ⟨by decide,
    (c3_submission_ordering "Banana" "Avocado" (FetchOutcome.netFail "")
      (FetchOutcome.okBody none) ⟨"Banana", false, none, "", false⟩
      ⟨"", false, none, "", false⟩ (by decide) rfl).2.2.2.1⟩

lemma analyze_failure_frame (s : AppState) (o : FetchOutcome)
    (h : isFailure o = true) :
    (runAnalyzeFood s o).nutritionData = s.nutritionData ∧
    (runAnalyzeFood s o).error ≠ "" := by
  by_cases hc : jsTrim s.foodItem = ""
  · constructor
    · simp [runAnalyzeFood, analyzeFood, hc, applyEvents, applyEvent]
    · simp [runAnalyzeFood, analyzeFood, hc, applyEvents, applyEvent]
  · cases o with
    | netFail msg =>
      rw [runAnalyzeFood_netFail s msg hc]
      exact ⟨rfl, jsOr_ne_empty msg _ (by decide)⟩
    | notOk d =>
      rw [runAnalyzeFood_notOk s d hc]
      exact ⟨rfl, failed_msg_ne_empty s.foodItem⟩
    | jsonFail msg =>
      rw [runAnalyzeFood_jsonFail s msg hc]
      exact ⟨rfl, jsOr_ne_empty msg _ (by decide)⟩
    | okBody body =>
      cases body with
      | none =>
        rw [runAnalyzeFood_okNone s hc]
        exact ⟨rfl, invalid_msg_ne_empty⟩
      | some b =>
        have hb : b.detailed_breakdown = none := by
          simpa [isFailure, Option.isNone_iff_eq_none] using h
        rw [runAnalyzeFood_okNoBreakdown s b hc hb]
        exact ⟨rfl, invalid_msg_ne_empty⟩

lemma quick_failure_frame (s : AppState) (food : String) (o : FetchOutcome)
    (h : isFailure o = true) :
    (runQuickAnalysis s food o).nutritionData = s.nutritionData ∧
    (runQuickAnalysis s food o).error ≠ "" := by
  cases o with
  | netFail msg =>
    rw [runQuickAnalysis_netFail]
    exact ⟨rfl, jsOr_ne_empty msg _ (by decide)⟩
  | notOk d =>
    rw [runQuickAnalysis_notOk]
    exact ⟨rfl, failed_msg_ne_empty food⟩
  | jsonFail msg =>
    rw [runQuickAnalysis_jsonFail]
    exact ⟨rfl, jsOr_ne_empty msg _ (by decide)⟩
  | okBody body =>
    cases body with
    | none =>
      rw [runQuickAnalysis_okNone]
      exact ⟨rfl, invalid_msg_ne_empty⟩
    | some b =>
      have hb : b.detailed_breakdown = none := by
        simpa [isFailure, Option.isNone_iff_eq_none] using h
      rw [runQuickAnalysis_okNoBreakdown s food b hb]
      exact ⟨rfl, invalid_msg_ne_empty⟩

/-- C4: on every failure path of either handler — validation failure,
transport failure, non-ok status, JSON failure, falsy body, or body lacking
`detailed_breakdown` — the previously stored nutrition data is left
untouched and the error message is set to a nonempty string. -/
theorem c4_failure_preserves_result (s s2 : AppState) (food : String)
    (o o2 : FetchOutcome) (h : isFailure o = true)
    (h2 : isFailure o2 = true) :
    (runAnalyzeFood s o).nutritionData = s.nutritionData ∧
    (runAnalyzeFood s o).error ≠ "" ∧
    (runQuickAnalysis s2 food o2).nutritionData = s2.nutritionData ∧
    (runQuickAnalysis s2 food o2).error ≠ "" := by
  obtain ⟨a1, a2⟩ := analyze_failure_frame s o h
  obtain ⟨b1, b2⟩ := quick_failure_frame s2 food o2 h2
  exact ⟨a1, a2, b1, b2⟩

/-- C4 witness: a shape failure on top of a previously displayed result
leaves that result in place. -/
theorem c4_failure_preserves_result_witness :
    isFailure (FetchOutcome.okBody none) = true ∧
    (runAnalyzeFood ⟨"apple", false,
      some ⟨"banana", "", some ⟨89, 1, 23, 2, 1, 12⟩, [], [], 75⟩, "",
      false⟩ (FetchOutcome.okBody none)).nutritionData =
      some ⟨"banana", "", some ⟨89, 1, 23, 2, 1, 12⟩, [], [], 75⟩ :=
  ⟨rfl,
    (c4_failure_preserves_result
      ⟨"apple", false,
        some ⟨"banana", "", some ⟨89, 1, 23, 2, 1, 12⟩, [], [], 75⟩, "",
        false⟩
      ⟨"", false, none, "", false⟩ "Banana" (FetchOutcome.okBody none)
      (FetchOutcome.okBody none) rfl rfl).1⟩

/-- C5 counterexample: for the success-status outcome with a falsy body at
input "apple", the error message is "Invalid response from server"
(capital I), not the claimed exact text "invalid response from server". -/
theorem c5_message_case_counterexample :
    (runAnalyzeFood ⟨"apple", false, none, "", false⟩
      (FetchOutcome.okBody none)).error = "Invalid response from server" ∧
    (runAnalyzeFood ⟨"apple", false, none, "", false⟩
      (FetchOutcome.okBody none)).error ≠ "invalid response from server" := by
  constructor
  · rfl
  · decide

lemma runAnalyzeFood_shape_fail (s : AppState) (body : Option ResponseBody)
    (hv : jsTrim s.foodItem ≠ "") (h : lacksBreakdown body = true) :
    (runAnalyzeFood s (FetchOutcome.okBody body)).error =
      "Invalid response from server" ∧
    (runAnalyzeFood s (FetchOutcome.okBody body)).nutritionData =
      s.nutritionData := by
  cases body with
  | none =>
    rw [runAnalyzeFood_okNone s hv]
    exact ⟨rfl, rfl⟩
  | some b =>
    have hb : b.detailed_breakdown = none := by
      simpa [lacksBreakdown, Option.isNone_iff_eq_none] using h
    rw [runAnalyzeFood_okNoBreakdown s b hv hb]
    exact ⟨rfl, rfl⟩

lemma runQuickAnalysis_shape_fail (s : AppState) (food : String)
    (body : Option ResponseBody) (h : lacksBreakdown body = true) :
    (runQuickAnalysis s food (FetchOutcome.okBody body)).error =
      "Invalid response from server" ∧
    (runQuickAnalysis s food (FetchOutcome.okBody body)).nutritionData =
      s.nutritionData := by
  cases body with
  | none =>
    rw [runQuickAnalysis_okNone]
    exact ⟨rfl, rfl⟩
  | some b =>
    have hb : b.detailed_breakdown = none := by
      simpa [lacksBreakdown, Option.isNone_iff_eq_none] using h
    rw [runQuickAnalysis_okNoBreakdown s food b hb]
    exact ⟨rfl, rfl⟩

/-- C5 (amended): for every success-status response whose parsed body is
falsy or lacks `detailed_breakdown`, both handlers fail with the fixed
message "Invalid response from server" — capitalised as in the code — and
leave the stored result untouched, regardless of the success status. -/
theorem c5_shape_error_fixed_message (s s2 : AppState) (food : String)
    (body body2 : Option ResponseBody) (hv : jsTrim s.foodItem ≠ "")
    (h : lacksBreakdown body = true) (h2 : lacksBreakdown body2 = true) :
    (runAnalyzeFood s (FetchOutcome.okBody body)).error =
      "Invalid response from server" ∧
    (runAnalyzeFood s (FetchOutcome.okBody body)).nutritionData =
      s.nutritionData ∧
    (runQuickAnalysis s2 food (FetchOutcome.okBody body2)).error =
      "Invalid response from server" ∧
    (runQuickAnalysis s2 food (FetchOutcome.okBody body2)).nutritionData =
      s2.nutritionData := by
  obtain ⟨a1, a2⟩ := runAnalyzeFood_shape_fail s body hv h
  obtain ⟨b1, b2⟩ := runQuickAnalysis_shape_fail s2 food body2 h2
  exact ⟨a1, a2, b1, b2⟩

/-- C5 witness at input "apple" and a falsy parsed body. -/
theorem c5_shape_error_fixed_message_witness :
    jsTrim "apple" ≠ "" ∧ lacksBreakdown (none : Option ResponseBody) = true ∧
    (runAnalyzeFood ⟨"apple", false, none, "", false⟩
      (FetchOutcome.okBody none)).error = "Invalid response from server" :=
  ⟨by decide, rfl,
    (c5_shape_error_fixed_message ⟨"apple", false, none, "", false⟩
      ⟨"", false, none, "", false⟩ "Banana" none none (by decide)
      rfl rfl).1⟩

/-- C6 counterexample: at input "apple" and a non-2xx response carrying the
server-provided detail "Daily quota exceeded", the error message is the
generic templated message, identical to the one produced when no detail is
present, and is not the server detail: the code never surfaces
server-provided detail. -/
theorem c6_server_detail_ignored :
    (runAnalyzeFood ⟨"apple", false, none, "", false⟩
      (FetchOutcome.notOk (some "Daily quota exceeded"))).error =
      "Failed to analyze apple. Please try again." ∧
    (runAnalyzeFood ⟨"apple", false, none, "", false⟩
      (FetchOutcome.notOk (some "Daily quota exceeded"))).error =
      (runAnalyzeFood ⟨"apple", false, none, "", false⟩
        (FetchOutcome.notOk none)).error ∧
    (runAnalyzeFood ⟨"apple", false, none, "", false⟩
      (FetchOutcome.notOk (some "Daily quota exceeded"))).error ≠
      "Daily quota exceeded" := by
  refine ⟨?_, rfl, ?_⟩
  · rfl
  · decide

/-- C6 (amended): for every non-ok response, `analyzeFood` fails with a
request error whose message is the generic templated message naming the raw
queried food, independent of any server-provided detail (which is never
read); for every transport failure, the message is the one carried by the
transport error, with a generic fallback when that message is empty; busy
state is cleared on both paths. -/
theorem c6_request_error_messages (s : AppState) (detail : Option String)
    (msg : String) (hv : jsTrim s.foodItem ≠ "") :
    (runAnalyzeFood s (FetchOutcome.notOk detail)).error =
      "Failed to analyze " ++ s.foodItem ++ ". Please try again." ∧
    (runAnalyzeFood s (FetchOutcome.notOk detail)).loading = false ∧
    (runAnalyzeFood s (FetchOutcome.netFail msg)).error =
      (if msg = "" then "Failed to analyze food. Please try again."
        else msg) ∧
    (runAnalyzeFood s (FetchOutcome.netFail msg)).loading = false := by
  rw [runAnalyzeFood_notOk s detail hv, runAnalyzeFood_netFail s msg hv]
  exact ⟨rfl, rfl, rfl, rfl⟩

/-- C6 witness at input "apple", a detailed non-2xx response and an empty
transport error message. -/
theorem c6_request_error_messages_witness :
    jsTrim "apple" ≠ "" ∧
    (runAnalyzeFood ⟨"apple", false, none, "", false⟩
      (FetchOutcome.notOk (some "detail"))).loading = false :=
  ⟨by decide,
    (c6_request_error_messages ⟨"apple", false, none, "", false⟩
      (some "detail") "" (by decide)).2.1⟩

/-- C7 counterexample: quickSelect("Avocado") sets the displayed query text
to "avocado", but the dispatched path parameter is "Avocado": the displayed
input is not equal to the string that was analyzed. -/
theorem c7_display_dispatch_mismatch :
    (runQuickAnalysis ⟨"", false, none, "", false⟩ "Avocado"
      (FetchOutcome.okBody none)).foodItem = "avocado" ∧
    Event.fetchCall ("http://localhost:8000/api/analyze/Avocado") ∈
      handleQuickAnalysis "Avocado" (FetchOutcome.okBody none) ∧
    encodeURIComponent (jsTrim "Avocado") = "Avocado" ∧
    ("Avocado" : String) ≠ "avocado" := by
  refine ⟨by decide, by decide, by decide, by decide⟩

/-- C7 (amended): for every selection, `handleQuickAnalysis` sets the
displayed query text to the lowercased selection strictly before the
dispatch, and the final displayed text is that lowercased selection; the
dispatched path parameter, however, is the URL-escaped trimmed original
selection, so the displayed text matches the analyzed item only up to
letter case. -/
theorem c7_quickSelect_display (food : String) (o : FetchOutcome)
    (s : AppState) :
    (∃ rest, handleQuickAnalysis food o =
      Event.setError "" :: Event.setFoodItem (toLowerCase food) ::
      Event.setLoading true ::
      Event.fetchCall ("http://localhost:8000/api/analyze/" ++
        encodeURIComponent (jsTrim food)) :: rest) ∧
    (runQuickAnalysis s food o).foodItem = toLowerCase food := by
  constructor
  · exact ⟨responseEvents food o ++ [Event.setLoading false], rfl⟩
  · cases o with
    | netFail msg =>
      rw [runQuickAnalysis_netFail]
    | notOk d =>
      rw [runQuickAnalysis_notOk]
    | jsonFail msg =>
      rw [runQuickAnalysis_jsonFail]
    | okBody body =>
      cases body with
      | none => rw [runQuickAnalysis_okNone]
      | some b =>
        cases hb : b.detailed_breakdown with
        | none => rw [runQuickAnalysis_okNoBreakdown s food b hb]
        | some bd => rw [runQuickAnalysis_success s food b bd hb]

/-- C8: `getScoreDescription` realises the four score tiers with exact cut
points — excellent ("Excellent Choice") when score ≥ 80, good
("Good Option") when 60 ≤ score < 80, fair ("Fair Choice") when
40 ≤ score < 60, poor ("Consider Alternatives") when score < 40 — in
particular at the boundary scores 80, 79.9, 60, 59.9, 40 and 39.9. -/
theorem c8_scoreTier_cutpoints (q : ℚ) :
    (80 ≤ q → getScoreDescription q = "Excellent Choice") ∧
    (60 ≤ q → q < 80 → getScoreDescription q = "Good Option") ∧
    (40 ≤ q → q < 60 → getScoreDescription q = "Fair Choice") ∧
    (q < 40 → getScoreDescription q = "Consider Alternatives") ∧
    getScoreDescription 80 = "Excellent Choice" ∧
    getScoreDescription (799/10) = "Good Option" ∧
    getScoreDescription 60 = "Good Option" ∧
    getScoreDescription (599/10) = "Fair Choice" ∧
    getScoreDescription 40 = "Fair Choice" ∧
    getScoreDescription (399/10) = "Consider Alternatives" := by
  refine ⟨?_, ?_, ?_, ?_, ?_, ?_, ?_, ?_, ?_, ?_⟩
  · intro ha
    unfold getScoreDescription
    rw [if_pos ha]
  · intro ha hb
    unfold getScoreDescription
    rw [if_neg (not_le.mpr hb), if_pos ha]
  · intro ha hb
    unfold getScoreDescription
    rw [if_neg (not_le.mpr (hb.trans (by norm_num))),
      if_neg (not_le.mpr hb), if_pos ha]
  · intro ha
    unfold getScoreDescription
    rw [if_neg (not_le.mpr (ha.trans (by norm_num))),
      if_neg (not_le.mpr (ha.trans (by norm_num))), if_neg (not_le.mpr ha)]
  · norm_num [getScoreDescription]
  · norm_num [getScoreDescription]
  · norm_num [getScoreDescription]
  · norm_num [getScoreDescription]
  · norm_num [getScoreDescription]
  · norm_num [getScoreDescription]

/-- C8 witness at the boundary score 79.9. -/
theorem c8_scoreTier_cutpoints_witness :
    (60 : ℚ) ≤ 799/10 ∧ (799/10 : ℚ) < 80 ∧
    getScoreDescription (799/10) = "Good Option" :=
  ⟨by norm_num, by norm_num,
    (c8_scoreTier_cutpoints (799/10)).2.1 (by norm_num) (by norm_num)⟩

/-- C9: the nutrient status chip realises its cut points exactly — "High"
when amount > 10, "Good" when 5 < amount ≤ 10, "Low" when amount ≤ 5 — in
particular status 10 is "Good" (not "High"), 10.1 is "High", 5 is "Low"
(not "Good"), and 5.1 is "Good". -/
theorem c9_nutrientStatus_cutpoints (q : ℚ) :
    (10 < q → nutrientStatus q = "High") ∧
    (5 < q → q ≤ 10 → nutrientStatus q = "Good") ∧
    (q ≤ 5 → nutrientStatus q = "Low") ∧
    nutrientStatus 10 = "Good" ∧
    nutrientStatus (101/10) = "High" ∧
    nutrientStatus 5 = "Low" ∧
    nutrientStatus (51/10) = "Good" := by
  refine ⟨?_, ?_, ?_, ?_, ?_, ?_, ?_⟩
  · intro ha
    unfold nutrientStatus
    rw [if_pos ha]
  · intro ha hb
    unfold nutrientStatus
    rw [if_neg (not_lt.mpr hb), if_pos ha]
  · intro ha
    unfold nutrientStatus
    rw [if_neg (not_lt.mpr (ha.trans (by norm_num))),
      if_neg (not_lt.mpr ha)]
  · norm_num [nutrientStatus]
  · norm_num [nutrientStatus]
  · norm_num [nutrientStatus]
  · norm_num [nutrientStatus]

/-- C9 witness at the boundary amount 10. -/
theorem c9_nutrientStatus_cutpoints_witness :
    (5 : ℚ) < 10 ∧ (10 : ℚ) ≤ 10 ∧ nutrientStatus 10 = "Good" :=
  ⟨by norm_num, by norm_num,
    (c9_nutrientStatus_cutpoints 10).2.1 (by norm_num) (by norm_num)⟩

/-- C10: `handleQuickAnalysis` performs no empty-input validation: for
every input string, including whitespace-only ones, its trace starts by
clearing the error, setting the display text and busy flag, and then always
dispatches the network call (no validation error occurs before it); the
validation contract holds for quick selections only because the fixed
suggestion list has eight entries, each trimming to a nonempty name. -/
theorem c10_quickSelect_no_validation (food : String) (o : FetchOutcome) :
    (∃ rest, handleQuickAnalysis food o =
      Event.setError "" :: Event.setFoodItem (toLowerCase food) ::
      Event.setLoading true ::
      Event.fetchCall ("http://localhost:8000/api/analyze/" ++
        encodeURIComponent (jsTrim food)) :: rest) ∧
    Event.fetchCall ("http://localhost:8000/api/analyze/" ++
      encodeURIComponent (jsTrim food)) ∈ handleQuickAnalysis food o ∧
    quickSuggestions.length = 8 ∧
    (∀ f, f ∈ quickSuggestions → jsTrim f ≠ "") := by
  refine ⟨⟨responseEvents food o ++ [Event.setLoading false], rfl⟩, ?_,
    rfl, ?_⟩
  · rw [handleQuickAnalysis]
    simp
  · intro f hf
    fin_cases hf <;> decide

/-- C10 witness: even a whitespace-only selection is dispatched, and the
first suggestion is a nonempty name. -/
theorem c10_quickSelect_no_validation_witness :
    Event.fetchCall ("http://localhost:8000/api/analyze/" ++
      encodeURIComponent (jsTrim "   ")) ∈
      handleQuickAnalysis "   " (FetchOutcome.notOk none) ∧
    "Banana" ∈ quickSuggestions ∧ jsTrim "Banana" ≠ "" :=
  ⟨(c10_quickSelect_no_validation "   " (FetchOutcome.notOk none)).2.1,
    by decide,
    (c10_quickSelect_no_validation "   "
      (FetchOutcome.notOk none)).2.2.2 "Banana" (by decide)⟩

end NutritionAnalyzer
